import Mathlib

/-!
Verification development for the srcds_exporter request handler and its
status/stats parsers (src/main.py). The Python code is shallowly embedded:

* Python dicts that map metric names to values become ordered association
  lists (`SDict`) with `setKey` modelling `d[k] = v` (update in place keeps
  the position of an existing key, a new key is appended).
* Python exceptions become `Except PyExc`; an `Except.error` that is not
  caught models an exception escaping the request handler.
* `float(v)` is modelled by `pyFloatOpt`, which accepts the decimal literal
  forms [sign] digits [. digits] [(e|E) [sign] digits] after stripping
  surrounding whitespace, and returns the exact decimal value as a
  numerator/denominator pair with a power-of-ten denominator (the metric
  values at issue, such as 1.5 or 30.0, are exact in IEEE doubles as well,
  so this coincides with the Python value; each token determines one
  representative, so value equality within a parse is structural).
* The stats/status text handling reimplements the Python string primitives
  str.splitlines, str.split, str.split(":", 1) and str.strip as structural
  recursion on character lists, restricted to the newline character and the
  ASCII whitespace class used by Python for these inputs.
* The players regular expression of SRCDSExporter._parse_status,
  (?P<players>\d+)\s+(humans,\s+)?((?P<bots>\d+)\s+bots\s+)?
  \((?P<max_players>\d+)(/\d)? max\), applied with re.match (anchored at the
  start only), is embedded as the committed parser `matchPlayersL`.  At each
  optional group the pattern that follows a successful group match begins
  with a character the skipped alternative cannot accept ((, a digit, or a
  letter), so the greedy committed reading and full backtracking succeed and
  fail on exactly the same inputs with the same captures.
* The network part of the scrape (RCON.create and the two commands) is out
  of scope; its classified outcome is passed to the handler as a
  `QueryOutcome` oracle, matching the exception dispatch in
  SRCDSExporter.request_handler.  Rendering (template.render) is an external
  collaborator; a successful response is modelled as the final metric dict.
-/

/-- Python exceptions that the embedded code can raise. -/
inductive PyExc where
  | targetSpec (msg : String)
  | unboundLocal (name : String)
  | valueError (msg : String)
  | indexError (msg : String)
deriving DecidableEq

/-- An exact decimal: the value num / den with den a power of ten.  The
parse of a given token always produces the same representative, so equality
of values produced by the parser is structural equality. -/
structure PyFloat where
  num : Int
  den : Nat
deriving DecidableEq

/-- A value stored in the metric dict: a string, a parsed float (exact
decimal semantics), or Python None (absent regex capture). -/
inductive Value where
  | str (s : String)
  | num (q : PyFloat)
  | pyNone
deriving DecidableEq

abbrev SDict := List (String × Value)

instance decEqExcept {e a : Type} [DecidableEq e] [DecidableEq a] : DecidableEq (Except e a) :=
  fun x y =>
  match x, y with
  | .error v, .error w =>
    if h : v = w then isTrue (by rw [h]) else isFalse (fun he => by cases he; exact h rfl)
  | .ok v, .ok w =>
    if h : v = w then isTrue (by rw [h]) else isFalse (fun he => by cases he; exact h rfl)
  | .error _, .ok _ => isFalse (fun he => by cases he)
  | .ok _, .error _ => isFalse (fun he => by cases he)

/-- Python dict assignment d[k] = v: replace in place when the key exists,
append otherwise. -/
def setKey : SDict → String → Value → SDict
  | [], k, v => [(k, v)]
  | (k1, v1) :: rest, k, v =>
    if k1 = k then (k1, v) :: rest else (k1, v1) :: setKey rest k v

/-- Sequential Python dict assignments. -/
def dictSets (d : SDict) : List (String × Value) → SDict
  | [] => d
  | (k, v) :: rest => dictSets (setKey d k v) rest

/-- The ASCII whitespace class of Python str.strip / str.split / regex \s. -/
def isPySpace (a : Char) : Bool :=
  if a = ' ' ∨ a = '\t' ∨ a = '\n' ∨ a = '\r' ∨ a = '\x0b' ∨ a = '\x0c' then true else false

def dropLeadingSpace : List Char → List Char
  | [] => []
  | c :: cs => if isPySpace c then dropLeadingSpace cs else c :: cs

/-- Python str.strip(): remove surrounding whitespace. -/
def pyStrip (s : String) : String :=
  String.mk ((dropLeadingSpace ((dropLeadingSpace s.data).reverse)).reverse)

def linesAux : List Char → List Char → List String
  | [], acc => [String.mk acc.reverse]
  | c :: rest, acc =>
    if c = '\n' then String.mk acc.reverse :: linesAux rest [] else linesAux rest (c :: acc)

/-- Python str.splitlines() for newline-separated text: split on every
newline; a trailing newline does not produce a final empty line. -/
def pySplitlines (s : String) : List String :=
  match s.data with
  | [] => []
  | cs => if cs.getLast? = some '\n' then (linesAux cs []).dropLast else linesAux cs []

def wordsAux : List Char → List Char → List String
  | [], acc => if acc = [] then [] else [String.mk acc.reverse]
  | c :: rest, acc =>
    if isPySpace c then
      if acc = [] then wordsAux rest [] else String.mk acc.reverse :: wordsAux rest []
    else wordsAux rest (c :: acc)

/-- Python str.split() with no argument: split on whitespace runs, no empty
tokens. -/
def pySplit (s : String) : List String :=
  wordsAux s.data []

/-- Python line.split(":", 1) on character lists: split at the first colon;
`none` models the one-element result that makes the two-name unpacking in
_parse_status raise ValueError. -/
def splitColon1L : List Char → Option (List Char × List Char)
  | [] => none
  | c :: cs =>
    if c = ':' then some ([], cs)
    else
      match splitColon1L cs with
      | some (a, b) => some (c :: a, b)
      | none => none

/-- Python line.split(":", 1) at the String level. -/
def splitColon1 (s : String) : Option (String × String) :=
  match splitColon1L s.data with
  | some (a, b) => some (String.mk a, String.mk b)
  | none => none

/-- Maximal run of decimal digits (regex \d+, greedy). -/
def takeDigits : List Char → List Char × List Char
  | [] => ([], [])
  | c :: cs =>
    if c.isDigit then
      match takeDigits cs with
      | (a, b) => (c :: a, b)
    else ([], c :: cs)

/-- Maximal run of whitespace (regex \s+, greedy). -/
def takeSpaces : List Char → List Char × List Char
  | [] => ([], [])
  | c :: cs =>
    if isPySpace c then
      match takeSpaces cs with
      | (a, b) => (c :: a, b)
    else ([], c :: cs)

/-- Match a literal character sequence, returning the rest of the input. -/
def matchLit : List Char → List Char → Option (List Char)
  | [], cs => some cs
  | _ :: _, [] => none
  | l :: ls, c :: cs => if c = l then matchLit ls cs else none

def humansLit : List Char := ['h', 'u', 'm', 'a', 'n', 's', ',']

def botsLit : List Char := ['b', 'o', 't', 's']

def maxLit : List Char := [' ', 'm', 'a', 'x', ')']

/-- The optional regex group (humans,\s+)? . When the literal and the
following whitespace match, the input after them starts with a digit or an
opening parenthesis, which the pattern that follows a skipped group cannot
accept either, so committing to the group is equivalent to backtracking. -/
def tryHumans (cs : List Char) : List Char :=
  match matchLit humansLit cs with
  | none => cs
  | some r =>
    match takeSpaces r with
    | (w, r2) => if w = [] then cs else r2

/-- The optional regex group ((?P<bots>\d+)\s+bots\s+)? . -/
def tryBots (cs : List Char) : Option (List Char) × List Char :=
  match takeDigits cs with
  | (ds, r1) =>
    if ds = [] then (none, cs)
    else
      match takeSpaces r1 with
      | (w1, r2) =>
        if w1 = [] then (none, cs)
        else
          match matchLit botsLit r2 with
          | none => (none, cs)
          | some r3 =>
            match takeSpaces r3 with
            | (w2, r4) => if w2 = [] then (none, cs) else (some ds, r4)

/-- The optional regex group (/\d)? : a slash followed by one digit. -/
def trySlashDigit : List Char → List Char
  | [] => []
  | c :: cs =>
    if c = '/' then
      match cs with
      | [] => [c]
      | c2 :: rest => if c2.isDigit then rest else c :: c2 :: rest
    else c :: cs

/-- Committed embedding of re.match applied to the players pattern
(?P<players>\d+)\s+(humans,\s+)?((?P<bots>\d+)\s+bots\s+)?
\((?P<max_players>\d+)(/\d)? max\) ; anything after the match is ignored. -/
def matchPlayersL (cs : List Char) : Option (List Char × Option (List Char) × List Char) :=
  match takeDigits cs with
  | (ps, r1) =>
    if ps = [] then none
    else
      match takeSpaces r1 with
      | (w1, r2) =>
        if w1 = [] then none
        else
          match tryBots (tryHumans r2) with
          | (bs, r4) =>
            match r4 with
            | [] => none
            | c :: r5 =>
              if c = '(' then
                match takeDigits r5 with
                | (ms, r6) =>
                  if ms = [] then none
                  else
                    match matchLit maxLit (trySlashDigit r6) with
                    | some _ => some (ps, bs, ms)
                    | none => none
              else none

/-- String-level re.match for the players pattern; captures are the matched
substrings, an absent bots group is None. -/
def matchPlayers (s : String) : Option (String × Option String × String) :=
  match matchPlayersL s.data with
  | none => none
  | some (ps, bs, ms) => some (String.mk ps, bs.map (fun l => String.mk l), String.mk ms)

def digitsToNat (cs : List Char) : Nat :=
  cs.foldl (fun a c => a * 10 + (c.toNat - 48)) 0

/-- Python float() on a stripped character list, restricted to finite
decimal literals: [sign] digits [. digits] [(e|E) [sign] digits], with at
least one digit in the mantissa.  The result is the exact decimal value
sign * (ipdigits.fpdigits) * 10^exponent, with no rounding (on the metric
values at issue the IEEE double produced by Python is this exact value). -/
def pyFloatCore (cs : List Char) : Option PyFloat :=
  let signRest : Int × List Char :=
    match cs with
    | c :: r => if c = '+' then (1, r) else if c = '-' then (-1, r) else (1, cs)
    | [] => (1, [])
  match signRest with
  | (sgn, cs1) =>
    match takeDigits cs1 with
    | (ip, cs2) =>
      let fracRest : List Char × List Char :=
        match cs2 with
        | c :: r => if c = '.' then takeDigits r else ([], cs2)
        | [] => ([], cs2)
      match fracRest with
      | (fp, cs3) =>
        if ip = [] ∧ fp = [] then none
        else
          let mNum : Int := sgn * (digitsToNat ip * 10 ^ fp.length + digitsToNat fp)
          let mDen : Nat := 10 ^ fp.length
          match cs3 with
          | [] => some ⟨mNum, mDen⟩
          | c :: r =>
            if c = 'e' ∨ c = 'E' then
              let esignRest : Bool × List Char :=
                match r with
                | c2 :: r2 => if c2 = '+' then (true, r2) else if c2 = '-' then (false, r2) else (true, r)
                | [] => (true, [])
              match esignRest with
              | (epos, r1) =>
                match takeDigits r1 with
                | (eds, r3) =>
                  if eds = [] then none
                  else if r3 = [] then
                    if epos then some ⟨mNum * 10 ^ digitsToNat eds, mDen⟩
                    else some ⟨mNum, mDen * 10 ^ digitsToNat eds⟩
                  else none
            else none

/-- Python float(v): strip whitespace, then parse the literal. -/
def pyFloatOpt (s : String) : Option PyFloat :=
  pyFloatCore (pyStrip s).data

/-- The list comprehension [float(v) for v in values]: left to right, the
first failure raises ValueError. -/
def floatList : List String → Except PyExc (List PyFloat)
  | [] => .ok []
  | v :: vs =>
    match pyFloatOpt v with
    | none => .error (.valueError ("could not convert string to float: " ++ v))
    | some q =>
      match floatList vs with
      | .error e => .error e
      | .ok qs => .ok (q :: qs)

/-- The STATS_MAPPING rename table of src/main.py. -/
def STATS_MAPPING : List (String × String) :=
  [("In", "NetIn"), ("In_(KB/s)", "NetIn"), ("Out", "NetOut"), ("Out_(KB/s)", "NetOut"),
   ("+-ms", "varms"), ("~tick", "vartick"), ("Svms", "svarms"), ("Map_changes", "Maps")]

/-- The rename loop of _parse_stats: a name present in the table is replaced
by its image, every other name passes through unchanged. -/
def statsRename (n : String) : String :=
  (STATS_MAPPING.lookup n).getD n

/-- SRCDSExporter._parse_stats: tokenize all lines, take names from line 0
and values from line 1 (IndexError when absent), rename the names, convert
every value with float() (ValueError aborts before any insertion), then add
the positional pairs to the dict. -/
def parse_stats (stats : String) (d : SDict) : Except PyExc SDict :=
  match ((pySplitlines stats).map pySplit).get? 0, ((pySplitlines stats).map pySplit).get? 1 with
  | some names, some vals =>
    match floatList vals with
    | .error e => .error e
    | .ok fs => .ok (dictSets d ((names.map statsRename).zip (fs.map Value.num)))
  | _, _ => .error (.indexError "list index out of range")

def optValue : Option String → Value
  | some s => Value.str s
  | none => Value.pyNone

/-- The body of the _parse_status loop for one key: value header line: a
players value is matched against the pattern and the groupdict (players,
bots, max_players, in definition order, None for an absent group) is merged;
a non-matching players value is skipped; hostname is stored verbatim; every
other key is ignored. -/
def statusLineUpdate (key value : String) (d : SDict) : SDict :=
  if key = "players" then
    match matchPlayers value with
    | some (ps, bs, ms) =>
      setKey (setKey (setKey d "players" (Value.str ps)) "bots" (optValue bs))
        "max_players" (Value.str ms)
    | none => d
  else if key = "hostname" then setKey d "hostname" (Value.str value)
  else d

/-- The line loop of SRCDSExporter._parse_status: stop at the first blank
line; a line without a colon makes the two-name unpacking raise ValueError,
which the code catches and turns into the same stop. -/
def parse_status_lines : List String → SDict → SDict
  | [], d => d
  | line :: rest, d =>
    if pyStrip line = "" then d
    else
      match splitColon1 line with
      | none => d
      | some (k0, v0) => parse_status_lines rest (statusLineUpdate (pyStrip k0) (pyStrip v0) d)

/-- SRCDSExporter._parse_status. -/
def parse_status (status : String) (d : SDict) : SDict :=
  parse_status_lines (pySplitlines status) d

/-- SRCDSExporter._parse_query: status first, then stats. -/
def parse_query (stats status : String) (d : SDict) : Except PyExc SDict :=
  parse_stats stats (parse_status status d)

/-- The exporter configuration: the statically configured target (used in
single-server mode) and the mode flag, as set up in __init__. -/
structure ExporterCfg where
  ip : String
  port : String
  password : String
  single : Bool
deriving DecidableEq

/-- The query string of the scrape request, as ordered key value pairs. -/
abbrev Query := List (String × String)

/-- SRCDSExporter._get_target.  In single-server mode any target or password
parameter raises TargetSpecificationError; otherwise the target parameter is
split on every colon into address and port and the password parameter is
required.  A missing target parameter raises KeyError, and the except block
then evaluates "target %s is not a valid target" "specification" % target
with the local variable target still unbound, so UnboundLocalError (not
TargetSpecificationError) escapes. -/
def get_target (cfg : ExporterCfg) (q : Query) : Except PyExc (String × String × String) :=
  if cfg.single then
    if (q.lookup "target").isSome || (q.lookup "password").isSome then
      .error (.targetSpec "\x27target\x27 and \x27password\x27 not allowed in single server mode.")
    else .ok (cfg.ip, cfg.port, cfg.password)
  else
    match q.lookup "target" with
    | none => .error (.unboundLocal "target")
    | some target =>
      match splitColon1L target.data with
      | none =>
        .error (.targetSpec ("target " ++ target ++ " is not a valid targetspecification"))
      | some (ipPart, rest) =>
        let port : String :=
          match splitColon1L rest with
          | none => String.mk rest
          | some (p, _) => String.mk p
        match q.lookup "password" with
        | none => .error (.targetSpec "no password given")
        | some pw => .ok (String.mk ipPart, port, pw)

/-- The classified outcome of _rcon_query, matching the exception dispatch
in request_handler: success with the two command outputs, TimeoutError,
ConnectionRefusedError, or any other exception. -/
inductive QueryOutcome where
  | ok (statusText statsText : String)
  | timedOut
  | connRefused
  | otherError
deriving DecidableEq

/-- A caller-visible result: a plain text HTTP response, or the complete
metric dict handed to the external template renderer. -/
inductive HandlerResult where
  | resp (status : Nat) (text : String)
  | metrics (d : SDict)
deriving DecidableEq

/-- The body of _server_down_response. -/
def downText : String :=
  "# HELP srcds_up is the gameserver reachable\n# TYPE srcds_up gauge\nsrcds_up 0"

def server_down_response : HandlerResult := .resp 200 downText

/-- SRCDSExporter.request_handler.  Only TargetSpecificationError from
_get_target is caught (404); the query outcome is classified as in the code;
on success the server dict is seeded with ip, port and the target string
"{%s}:{%s}" % (ip, port) (the braces are literal characters in the Python
format string) and the parsers run outside any try block, so a parse
exception escapes the handler. -/
def request_handler (cfg : ExporterCfg) (path : String) (q : Query) (qr : QueryOutcome) :
    Except PyExc HandlerResult :=
  if path = "/metrics" then
    match get_target cfg q with
    | .error (.targetSpec m) => .ok (.resp 404 ("target specification is invalid: " ++ m))
    | .error e => .error e
    | .ok (ip, port, _pw) =>
      match qr with
      | .timedOut => .ok server_down_response
      | .connRefused => .ok (.resp 503 "Connection refused by target")
      | .otherError => .ok server_down_response
      | .ok statusText statsText =>
        let d0 : SDict :=
          [("ip", .str ip), ("port", .str port),
           ("target", .str ("\x7b" ++ ip ++ "\x7d:\x7b" ++ port ++ "\x7d"))]
        match parse_query statsText statusText d0 with
        | .ok d => .ok (.metrics d)
        | .error e => .error e
  else .ok (.resp 404 "invalid path")

/-- A concrete single-server configuration used by witnesses. -/
def cfgExample : ExporterCfg := ⟨"1.2.3.4", "27015", "pw", true⟩

/-- A concrete multi-target configuration (the static fields are unused in
multi-target mode). -/
def cfgMulti : ExporterCfg := ⟨"", "", "", false⟩

/-- The status text of the example in the specification. -/
def c5statusText : String := "hostname: My Server\nplayers: 5 humans, 2 bots (10 max)\n"

/-- The stats text of the example in the specification. -/
def c5statsText : String := "In Out +-ms\n1.5 2.5 30.0\n"

/-- The metric dict the code actually produces for the example inputs. -/
def c5actualDict : SDict :=
  [("ip", .str "1.2.3.4"), ("port", .str "27015"),
   ("target", .str "\x7b1.2.3.4\x7d:\x7b27015\x7d"),
   ("hostname", .str "My Server"), ("players", .str "5"), ("bots", .str "2"),
   ("max_players", .str "10"),
   ("NetIn", .num ⟨15, 10⟩), ("NetOut", .num ⟨25, 10⟩), ("varms", .num ⟨300, 10⟩)]

/-! Helper lemmas about the character-list primitives. -/

theorem takeDigits_cons_nondigit (c : Char) (hc : c.isDigit = false) (cs : List Char) :
    takeDigits (c :: cs) = ([], c :: cs) := by
  simp [takeDigits, hc]

theorem takeDigits_app (ds rest : List Char) (hd : ∀ a ∈ ds, a.isDigit = true)
    (hr : ∀ a, rest.head? = some a → a.isDigit = false) :
    takeDigits (ds ++ rest) = (ds, rest) := by
  induction ds with
  | nil =>
    cases rest with
    | nil => rfl
    | cons c cs => simpa using takeDigits_cons_nondigit c (hr c rfl) cs
  | cons d ds ih =>
    have hd1 : d.isDigit = true := hd d (by simp)
    have ih2 := ih (fun a ha => hd a (by simp [ha]))
    simp [takeDigits, hd1, ih2]

theorem takeDigits_app_cons (ds : List Char) (hd : ∀ a ∈ ds, a.isDigit = true)
    (c : Char) (hc : c.isDigit = false) (rest : List Char) :
    takeDigits (ds ++ c :: rest) = (ds, c :: rest) :=
  takeDigits_app ds (c :: rest) hd
    (fun a ha => by simp only [List.head?_cons, Option.some.injEq] at ha; exact ha ▸ hc)

theorem takeSpaces_cons_nonspace (c : Char) (h : isPySpace c = false) (cs : List Char) :
    takeSpaces (c :: cs) = ([], c :: cs) := by
  simp [takeSpaces, h]

theorem takeSpaces_single (c : Char) (h : isPySpace c = false) (cs : List Char) :
    takeSpaces (' ' :: c :: cs) = ([' '], c :: cs) := by
  simp [takeSpaces, h, show isPySpace ' ' = true by decide]

theorem digit_not_pyspace (a : Char) (h : a.isDigit = true) : isPySpace a = false := by
  have h1 : ¬ a = ' ' := fun e => by rw [e] at h; exact absurd h (by decide)
  have h2 : ¬ a = '\t' := fun e => by rw [e] at h; exact absurd h (by decide)
  have h3 : ¬ a = '\n' := fun e => by rw [e] at h; exact absurd h (by decide)
  have h4 : ¬ a = '\r' := fun e => by rw [e] at h; exact absurd h (by decide)
  have h5 : ¬ a = '\x0b' := fun e => by rw [e] at h; exact absurd h (by decide)
  have h6 : ¬ a = '\x0c' := fun e => by rw [e] at h; exact absurd h (by decide)
  simp [isPySpace, h1, h2, h3, h4, h5, h6]

theorem takeSpaces_space_append_digits (ds : List Char) (hne : ds ≠ [])
    (hd : ∀ a ∈ ds, a.isDigit = true) (rest : List Char) :
    takeSpaces (' ' :: (ds ++ rest)) = ([' '], ds ++ rest) := by
  cases ds with
  | nil => exact absurd rfl hne
  | cons d l =>
    have hds : isPySpace d = false := digit_not_pyspace d (hd d (by simp))
    simpa using takeSpaces_single d hds (l ++ rest)

theorem matchLit_nil (cs : List Char) : matchLit [] cs = some cs := rfl

theorem matchLit_cons_self (a : Char) (ls cs : List Char) :
    matchLit (a :: ls) (a :: cs) = matchLit ls cs := by
  simp [matchLit]

theorem matchLit_cons_ne (l c : Char) (h : ¬ c = l) (ls cs : List Char) :
    matchLit (l :: ls) (c :: cs) = none := by
  simp [matchLit, h]

theorem matchLit_max (s : List Char) :
    matchLit maxLit (' ' :: 'm' :: 'a' :: 'x' :: ')' :: s) = some s := rfl

theorem trySlashDigit_nonslash (c : Char) (h : ¬ c = '/') (cs : List Char) :
    trySlashDigit (c :: cs) = c :: cs := by
  simp [trySlashDigit, h]

theorem trySlashDigit_slash (c : Char) (h : c.isDigit = true) (cs : List Char) :
    trySlashDigit ('/' :: c :: cs) = cs := by
  simp [trySlashDigit, h]

/-! The three documented players layouts, traced through the committed
regex embedding. -/

theorem matchPlayersL_humans_bots (ps bs ms tail : List Char)
    (hp : ps ≠ []) (hpd : ∀ a ∈ ps, a.isDigit = true)
    (hb : bs ≠ []) (hbd : ∀ a ∈ bs, a.isDigit = true)
    (hm : ms ≠ []) (hmd : ∀ a ∈ ms, a.isDigit = true)
    (htail : ∀ a, tail.head? = some a → a.isDigit = false)
    (r : List Char) (hfin : matchLit maxLit (trySlashDigit tail) = some r) :
    matchPlayersL (ps ++ ' ' :: 'h' :: 'u' :: 'm' :: 'a' :: 'n' :: 's' :: ',' :: ' ' ::
      (bs ++ ' ' :: 'b' :: 'o' :: 't' :: 's' :: ' ' :: '(' :: (ms ++ tail))) =
      some (ps, some bs, ms) := by
  simp [matchPlayersL, tryHumans, tryBots, humansLit, botsLit,
    takeDigits_app_cons ps hpd ' ' (by decide),
    takeSpaces_single 'h' (by decide),
    matchLit_cons_self, matchLit_nil,
    takeSpaces_space_append_digits bs hb hbd,
    takeDigits_app_cons bs hbd ' ' (by decide),
    takeSpaces_single 'b' (by decide),
    takeSpaces_single '(' (by decide),
    takeDigits_app ms tail hmd htail,
    hfin, hp, hb, hm]

theorem matchPlayersL_gmod (ps ms : List Char)
    (hp : ps ≠ []) (hpd : ∀ a ∈ ps, a.isDigit = true)
    (hm : ms ≠ []) (hmd : ∀ a ∈ ms, a.isDigit = true) :
    matchPlayersL (ps ++ ' ' :: '(' :: (ms ++ ' ' :: 'm' :: 'a' :: 'x' :: ')' :: [])) =
      some (ps, none, ms) := by
  simp [matchPlayersL, tryHumans, tryBots, humansLit, maxLit,
    takeDigits_app_cons ps hpd ' ' (by decide),
    takeSpaces_single '(' (by decide),
    matchLit_cons_ne 'h' '(' (by decide),
    takeDigits_cons_nondigit '(' (by decide),
    takeDigits_app_cons ms hmd ' ' (by decide),
    trySlashDigit_nonslash ' ' (by decide),
    matchLit_cons_self, matchLit_nil, hp, hm]

/-! Helper lemmas about the dict and the parsers. -/

theorem setKey_not_mem (d : SDict) (k : String) (v : Value) (h : k ∉ d.map Prod.fst) :
    setKey d k v = d ++ [(k, v)] := by
  induction d with
  | nil => rfl
  | cons p rest ih =>
    obtain ⟨k1, v1⟩ := p
    simp only [List.map_cons, List.mem_cons, not_or] at h
    obtain ⟨h1, h2⟩ := h
    have hne : ¬ k1 = k := fun he => h1 he.symm
    simp [setKey, hne, ih h2]

theorem dictSets_append (ps : List (String × Value)) : ∀ (d : SDict),
    (ps.map Prod.fst).Nodup → (∀ k ∈ ps.map Prod.fst, k ∉ d.map Prod.fst) →
    dictSets d ps = d ++ ps := by
  induction ps with
  | nil => intro d _ _; simp [dictSets]
  | cons p rest ih =>
    intro d hnd hfr
    obtain ⟨k, v⟩ := p
    simp only [List.map_cons, List.nodup_cons] at hnd
    have hk : k ∉ d.map Prod.fst := hfr k (by simp)
    have hfr2 : ∀ k2 ∈ rest.map Prod.fst, k2 ∉ (d ++ [(k, v)]).map Prod.fst := by
      intro k2 hk2
      simp only [List.map_append, List.mem_append, List.map_cons, List.map_nil,
        List.mem_cons, List.not_mem_nil, or_false, not_or]
      exact ⟨hfr k2 (by simp [hk2]), fun he => hnd.1 (he ▸ hk2)⟩
    calc dictSets d ((k, v) :: rest)
        = dictSets (setKey d k v) rest := rfl
      _ = dictSets (d ++ [(k, v)]) rest := by rw [setKey_not_mem d k v hk]
      _ = (d ++ [(k, v)]) ++ rest := ih (d ++ [(k, v)]) hnd.2 hfr2
      _ = d ++ (k, v) :: rest := by simp

theorem floatList_length (vs : List String) : ∀ fs, floatList vs = .ok fs → fs.length = vs.length := by
  induction vs with
  | nil =>
    intro fs h
    simp only [floatList, Except.ok.injEq] at h
    rw [← h]
    rfl
  | cons v vs ih =>
    intro fs h
    simp only [floatList] at h
    cases hp : pyFloatOpt v with
    | none => rw [hp] at h; cases h
    | some q =>
      rw [hp] at h
      cases hr : floatList vs with
      | error e => rw [hr] at h; cases h
      | ok qs =>
        rw [hr] at h
        simp only [Except.ok.injEq] at h
        rw [← h]
        simp [ih qs hr]

theorem parse_stats_ok (stats : String) (d : SDict) (l1 l2 : List String)
    (fs : List PyFloat)
    (h0 : ((pySplitlines stats).map pySplit).get? 0 = some l1)
    (h1 : ((pySplitlines stats).map pySplit).get? 1 = some l2)
    (hf : floatList l2 = .ok fs) :
    parse_stats stats d = .ok (dictSets d ((l1.map statsRename).zip (fs.map Value.num))) := by
  simp only [parse_stats, h0, h1, hf]

theorem parse_stats_err (stats : String) (d : SDict) (l2 : List String) (ex : PyExc)
    (h1 : ((pySplitlines stats).map pySplit).get? 1 = some l2)
    (hf : floatList l2 = .error ex) :
    parse_stats stats d = .error ex := by
  cases hL : (pySplitlines stats).map pySplit with
  | nil => rw [hL] at h1; cases h1
  | cons a rest =>
    cases rest with
    | nil => rw [hL] at h1; cases h1
    | cons b rest2 =>
      rw [hL] at h1
      simp only [List.get?] at h1
      cases h1
      simp only [parse_stats, hL, List.get?, hf]

theorem dropLeadingSpace_eq_nil (cs : List Char) (h : dropLeadingSpace cs = []) :
    ∀ a ∈ cs, isPySpace a = true := by
  induction cs with
  | nil => simp
  | cons c l ih =>
    by_cases hc : isPySpace c = true
    · simp only [dropLeadingSpace, hc, if_true] at h
      intro a ha
      rcases List.mem_cons.mp ha with h1 | h1
      · rw [h1]; exact hc
      · exact ih h a h1
    · simp only [dropLeadingSpace, hc, if_false] at h
      cases h

theorem pyStrip_mk_head (c : Char) (cs : List Char) (hc : isPySpace c = false) :
    pyStrip (String.mk (c :: cs)) ≠ "" := by
  intro he
  have hdata : (dropLeadingSpace ((dropLeadingSpace (c :: cs)).reverse)).reverse = [] := by
    have h0 := congrArg String.data he
    simpa [pyStrip] using h0
  rw [show dropLeadingSpace (c :: cs) = c :: cs by simp [dropLeadingSpace, hc]] at hdata
  have h2 : dropLeadingSpace ((c :: cs).reverse) = [] := by
    simpa using congrArg List.reverse hdata
  have h3 := dropLeadingSpace_eq_nil _ h2 c (by simp)
  rw [hc] at h3
  cases h3

theorem splitColon1L_players (xs : List Char) :
    splitColon1L ('p' :: 'l' :: 'a' :: 'y' :: 'e' :: 'r' :: 's' :: ':' :: xs) =
      some (['p', 'l', 'a', 'y', 'e', 'r', 's'], xs) := rfl

theorem string_eta (s : String) : String.mk s.data = s := rfl

/-- One players header line in the _parse_status loop: the line splits at
the colon after the key, the key strips to players, and the stripped value
is handed to the regex. -/
theorem parse_status_players_line (x : String) (rest : List String) (d : SDict) :
    parse_status_lines
        (String.mk ('p' :: 'l' :: 'a' :: 'y' :: 'e' :: 'r' :: 's' :: ':' :: x.data) :: rest) d =
      parse_status_lines rest (statusLineUpdate "players" (pyStrip x) d) := by
  have hne : pyStrip (String.mk ('p' :: 'l' :: 'a' :: 'y' :: 'e' :: 'r' :: 's' :: ':' :: x.data)) ≠ "" :=
    pyStrip_mk_head 'p' _ (by decide)
  have hsplit : splitColon1 (String.mk ('p' :: 'l' :: 'a' :: 'y' :: 'e' :: 'r' :: 's' :: ':' :: x.data)) =
      some ("players", x) := by
    simp only [splitColon1, splitColon1L_players]
  have hkey : pyStrip "players" = "players" := rfl
  simp only [parse_status_lines]
  rw [if_neg hne]
  simp only [hsplit, hkey]

theorem parse_status_stop_blank (pre : List String) (blankL : String)
    (hb : pyStrip blankL = "") (post : List String) : ∀ (d : SDict),
    parse_status_lines (pre ++ blankL :: post) d = parse_status_lines pre d := by
  induction pre with
  | nil => intro d; simp [parse_status_lines, hb]
  | cons l ls ih =>
    intro d
    by_cases h1 : pyStrip l = ""
    · simp [parse_status_lines, h1]
    · cases h2 : splitColon1 l with
      | none => simp [parse_status_lines, h1, h2]
      | some kv =>
        obtain ⟨k0, v0⟩ := kv
        simp [parse_status_lines, h1, h2, ih]

theorem parse_status_stop_nocolon (pre : List String) (badL : String)
    (hc : splitColon1 badL = none) (post : List String) : ∀ (d : SDict),
    parse_status_lines (pre ++ badL :: post) d = parse_status_lines pre d := by
  induction pre with
  | nil =>
    intro d
    by_cases h1 : pyStrip badL = ""
    · simp [parse_status_lines, h1]
    · simp [parse_status_lines, h1, hc]
  | cons l ls ih =>
    intro d
    by_cases h1 : pyStrip l = ""
    · simp [parse_status_lines, h1]
    · cases h2 : splitColon1 l with
      | none => simp [parse_status_lines, h1, h2]
      | some kv =>
        obtain ⟨k0, v0⟩ := kv
        simp [parse_status_lines, h1, h2, ih]

/-! The claims. -/

/-- C1 counterexample: with a stats value token that does not parse as a
float, the handler result is an uncaught ValueError escaping the request
handler (the parsers run outside the try block), not the fixed down
observable the claim demands. -/
theorem c1_counterexample :
    request_handler cfgExample "/metrics" [] (QueryOutcome.ok "hostname: X" "A\nabc") =
      .error (.valueError "could not convert string to float: abc") ∧
    ¬ request_handler cfgExample "/metrics" [] (QueryOutcome.ok "hostname: X" "A\nabc") =
      .ok (HandlerResult.resp 200 downText) := by
  decide

/-- C1 amended: for every query whose stats response has a value token that
does not parse as a float, the whole query fails with the ValueError raised
by float(), the exception escapes the request handler uncaught, and no
response at all (neither a partial metric set nor the down observable) is
produced. -/
theorem c1_amended (cfg : ExporterCfg) (q : Query) (t : String × String × String)
    (statusText statsText : String) (l2 : List String) (ex : PyExc)
    (hT : get_target cfg q = .ok t)
    (hl : ((pySplitlines statsText).map pySplit).get? 1 = some l2)
    (hf : floatList l2 = .error ex) :
    request_handler cfg "/metrics" q (QueryOutcome.ok statusText statsText) = .error ex := by
  obtain ⟨ip, port, pw⟩ := t
  have hps : ∀ d, parse_stats statsText d = .error ex :=
    fun d => parse_stats_err statsText d l2 ex hl hf
  simp [request_handler, hT, parse_query, hps]

/-- C1 witness for the amended theorem. -/
theorem c1_witness :
    ((pySplitlines "A\nabc").map pySplit).get? 1 = some ["abc"] ∧
    request_handler cfgExample "/metrics" [] (QueryOutcome.ok "hostname: X" "A\nabc") =
      .error (.valueError "could not convert string to float: abc") :=
  ⟨by decide, c1_amended cfgExample [] ("1.2.3.4", "27015", "pw") "hostname: X" "A\nabc" ["abc"]
    (.valueError "could not convert string to float: abc") (by decide) (by decide) (by decide)⟩

/-- C2: whenever target resolution succeeds, a timeout and any unclassified
failure both yield exactly the fixed down observable (status 200, body
consisting of the srcds_up gauge set to 0 and nothing else), and a refused
connection yields the distinct 503 text response with no metrics. -/
theorem c2_failure_outcomes (cfg : ExporterCfg) (q : Query) (t : String × String × String)
    (h : get_target cfg q = .ok t) :
    request_handler cfg "/metrics" q QueryOutcome.timedOut = .ok (HandlerResult.resp 200 downText) ∧
    request_handler cfg "/metrics" q QueryOutcome.otherError = .ok (HandlerResult.resp 200 downText) ∧
    request_handler cfg "/metrics" q QueryOutcome.connRefused =
      .ok (HandlerResult.resp 503 "Connection refused by target") ∧
    downText = "# HELP srcds_up is the gameserver reachable\n# TYPE srcds_up gauge\nsrcds_up 0" := by
  obtain ⟨ip, port, pw⟩ := t
  refine ⟨?_, ?_, ?_, rfl⟩ <;> simp [request_handler, h, server_down_response]

/-- C2 witness. -/
theorem c2_witness :
    get_target cfgExample [] = .ok ("1.2.3.4", "27015", "pw") ∧
    request_handler cfgExample "/metrics" [] QueryOutcome.timedOut =
      .ok (HandlerResult.resp 200 downText) :=
  ⟨by decide, (c2_failure_outcomes cfgExample [] ("1.2.3.4", "27015", "pw") (by decide)).1⟩

/-- C3 counterexample: the input has two columns, both names are in the
rename table, but both rename to NetIn, so the dict gains a single metric
(the second assignment overwrites the first) and the metric count does not
equal the column count. -/
theorem c3_counterexample :
    (pySplit "In In_(KB/s)").length = 2 ∧
    parse_stats "In In_(KB/s)\n1.0 2.0" [] = .ok [("NetIn", Value.num ⟨20, 10⟩)] ∧
    ¬ ([("NetIn", Value.num ⟨20, 10⟩)] : SDict).length = ([] : SDict).length + 2 := by
  decide

/-- C3 amended: on a valid two-line stats input whose renamed names are
pairwise distinct and fresh for the dict, every name in the table is
replaced exactly once (by its table image), names absent from the table pass
through verbatim, and the number of metrics added equals the column count.
Without the distinctness hypothesis the count clause fails, because two
columns may rename to the same key. -/
theorem c3_amended (stats : String) (d : SDict) (l1 l2 : List String) (fs : List PyFloat)
    (h0 : ((pySplitlines stats).map pySplit).get? 0 = some l1)
    (h1 : ((pySplitlines stats).map pySplit).get? 1 = some l2)
    (hlen : l1.length = l2.length)
    (hf : floatList l2 = .ok fs)
    (hnd : (l1.map statsRename).Nodup)
    (hfresh : ∀ k ∈ l1.map statsRename, k ∉ d.map Prod.fst) :
    parse_stats stats d = .ok (d ++ (l1.map statsRename).zip (fs.map Value.num)) ∧
    (d ++ (l1.map statsRename).zip (fs.map Value.num)).length = d.length + l1.length ∧
    (∀ n r, STATS_MAPPING.lookup n = some r → statsRename n = r) ∧
    (∀ n, STATS_MAPPING.lookup n = none → statsRename n = n) := by
  have hlenfs : fs.length = l2.length := floatList_length l2 fs hf
  have hfst : ((l1.map statsRename).zip (fs.map Value.num)).map Prod.fst = l1.map statsRename := by
    apply List.map_fst_zip
    simp [hlenfs, hlen]
  have hds : dictSets d ((l1.map statsRename).zip (fs.map Value.num)) =
      d ++ (l1.map statsRename).zip (fs.map Value.num) := by
    apply dictSets_append
    · rw [hfst]; exact hnd
    · rw [hfst]; exact hfresh
  refine ⟨?_, ?_, ?_, ?_⟩
  · rw [← hds]; exact parse_stats_ok stats d l1 l2 fs h0 h1 hf
  · rw [List.length_append, List.length_zip, List.length_map, List.length_map, hlenfs, ← hlen,
      min_self]
  · intro n r hx; simp [statsRename, hx]
  · intro n hx; simp [statsRename, hx]

/-- C3 witness for the amended theorem. -/
theorem c3_witness :
    (["In", "Out"].map statsRename).Nodup ∧
    parse_stats "In Out\n1.0 2.0" [] =
      .ok (([] : SDict) ++
        (["In", "Out"].map statsRename).zip (([⟨10, 10⟩, ⟨20, 10⟩] : List PyFloat).map Value.num)) :=
  ⟨by decide, (c3_amended "In Out\n1.0 2.0" [] ["In", "Out"] ["1.0", "2.0"] [⟨10, 10⟩, ⟨20, 10⟩]
    (by decide) (by decide) (by decide) (by decide) (by decide) (by decide)).1⟩

/-- C4: for any integer player count ps, bot count bs and maximum ms
(written as nonempty digit strings) the three documented layouts all match,
with the same players capture ps and the same max_players capture ms in
every layout, the bots segment captured when present, and both the /digit
suffix and any trailing annotation accepted and discarded. -/
theorem c4_three_layouts (ps bs ms : List Char) (c : Char) (suffix : List Char)
    (hp : ps ≠ []) (hpd : ∀ a ∈ ps, a.isDigit = true)
    (hb : bs ≠ []) (hbd : ∀ a ∈ bs, a.isDigit = true)
    (hm : ms ≠ []) (hmd : ∀ a ∈ ms, a.isDigit = true)
    (hc : c.isDigit = true) :
    matchPlayersL (ps ++ ' ' :: 'h' :: 'u' :: 'm' :: 'a' :: 'n' :: 's' :: ',' :: ' ' ::
        (bs ++ ' ' :: 'b' :: 'o' :: 't' :: 's' :: ' ' :: '(' ::
          (ms ++ '/' :: c :: ' ' :: 'm' :: 'a' :: 'x' :: ')' :: suffix))) =
      some (ps, some bs, ms) ∧
    matchPlayersL (ps ++ ' ' :: '(' :: (ms ++ ' ' :: 'm' :: 'a' :: 'x' :: ')' :: [])) =
      some (ps, none, ms) ∧
    matchPlayersL (ps ++ ' ' :: 'h' :: 'u' :: 'm' :: 'a' :: 'n' :: 's' :: ',' :: ' ' ::
        (bs ++ ' ' :: 'b' :: 'o' :: 't' :: 's' :: ' ' :: '(' ::
          (ms ++ ' ' :: 'm' :: 'a' :: 'x' :: ')' :: []))) =
      some (ps, some bs, ms) := by
  refine ⟨?_, matchPlayersL_gmod ps ms hp hpd hm hmd, ?_⟩
  · apply matchPlayersL_humans_bots ps bs ms _ hp hpd hb hbd hm hmd _ suffix
    · rw [trySlashDigit_slash c hc]
      exact matchLit_max suffix
    · intro a ha
      simp only [List.head?_cons, Option.some.injEq] at ha
      rw [← ha]; decide
  · apply matchPlayersL_humans_bots ps bs ms _ hp hpd hb hbd hm hmd _ []
    · rw [trySlashDigit_nonslash ' ' (by decide)]
      exact matchLit_max []
    · intro a ha
      simp only [List.head?_cons, Option.some.injEq] at ha
      rw [← ha]; decide

/-- C4 witness. -/
theorem c4_witness :
    (∀ a ∈ ['1', '2'], a.isDigit = true) ∧
    matchPlayersL (['1', '2'] ++ ' ' :: '(' :: (['1', '6'] ++ ' ' :: 'm' :: 'a' :: 'x' :: ')' :: [])) =
      some (['1', '2'], none, ['1', '6']) :=
  ⟨by decide, (c4_three_layouts ['1', '2'] ['0'] ['1', '6'] '3' ['!'] (by decide) (by decide)
    (by decide) (by decide) (by decide) (by decide) (by decide)).2.1⟩

/-- C5 counterexample: on the example status and stats texts the handler
produces c5actualDict, in which the target value carries the literal braces
of the Python format string "{%s}:{%s}" rather than the plain
address:port form, and the players value is the captured substring "5"
rather than a number. -/
theorem c5_counterexample :
    request_handler cfgExample "/metrics" [] (QueryOutcome.ok c5statusText c5statsText) =
      .ok (HandlerResult.metrics c5actualDict) ∧
    c5actualDict.lookup "target" = some (Value.str "\x7b1.2.3.4\x7d:\x7b27015\x7d") ∧
    ¬ c5actualDict.lookup "target" = some (Value.str "1.2.3.4:27015") ∧
    c5actualDict.lookup "players" = some (Value.str "5") := by
  decide

/-- C5 amended: on the example inputs the parser produces exactly the
mapping ip, port, target (with the literal braces the code's format string
inserts), hostname "My Server", players "5", bots "2", max_players "10" (the
captured substrings, stored as strings), NetIn 1.5, NetOut 2.5 and varms
30.0 (exact decimals num/den). -/
theorem c5_amended :
    request_handler cfgExample "/metrics" [] (QueryOutcome.ok c5statusText c5statsText) =
      .ok (HandlerResult.metrics c5actualDict) := by
  decide

/-- C6: the _parse_status loop stops at the first blank line (every line
after it is ignored whatever it contains), stops at the first line that does
not split on a colon, and a players line whose value does not match the
player-count pattern contributes nothing and does not abort the parse. -/
theorem c6_stop_conditions (pre : List String) (blankL badL x : String)
    (post1 post2 post3 : List String) (d1 d2 d3 : SDict)
    (hb : pyStrip blankL = "")
    (hc : splitColon1 badL = none)
    (hm : matchPlayersL (pyStrip x).data = none) :
    parse_status_lines (pre ++ blankL :: post1) d1 = parse_status_lines pre d1 ∧
    parse_status_lines (pre ++ badL :: post2) d2 = parse_status_lines pre d2 ∧
    parse_status_lines
        (String.mk ('p' :: 'l' :: 'a' :: 'y' :: 'e' :: 'r' :: 's' :: ':' :: x.data) :: post3) d3 =
      parse_status_lines post3 d3 := by
  refine ⟨parse_status_stop_blank pre blankL hb post1 d1,
    parse_status_stop_nocolon pre badL hc post2 d2, ?_⟩
  rw [parse_status_players_line]
  have hu : statusLineUpdate "players" (pyStrip x) d3 = d3 := by
    simp [statusLineUpdate, matchPlayers, hm]
  rw [hu]

/-- C6 witness. -/
theorem c6_witness :
    splitColon1 "nocolon" = none ∧
    parse_status_lines (["hostname: h"] ++ "" :: ["players: 1 (2 max)"]) [] =
      parse_status_lines ["hostname: h"] [] :=
  ⟨by decide, (c6_stop_conditions ["hostname: h"] "" "nocolon" " junk" ["players: 1 (2 max)"]
    [] [] [] [] [] (by decide) (by decide) (by decide)).1⟩

/-- C7: in multi-target mode a request without a target parameter makes
_get_target raise UnboundLocalError (the except block formats its message
with the unbound variable target), which is not a TargetSpecificationError
and therefore escapes the request handler instead of being rejected with
detail, contradicting the claim that only TargetSpecificationInvalid can
come out of target resolution. -/
theorem c7_missing_target_escapes (cfg : ExporterCfg) (q : Query)
    (h1 : cfg.single = false) (h2 : q.lookup "target" = none) :
    get_target cfg q = .error (.unboundLocal "target") ∧
    request_handler cfg "/metrics" q QueryOutcome.timedOut = .error (.unboundLocal "target") := by
  have hg : get_target cfg q = .error (.unboundLocal "target") := by
    simp [get_target, h1, h2]
  exact ⟨hg, by simp [request_handler, hg]⟩

/-- C7 witness. -/
theorem c7_witness :
    cfgMulti.single = false ∧
    request_handler cfgMulti "/metrics" [("password", "x")] QueryOutcome.timedOut =
      .error (.unboundLocal "target") :=
  ⟨rfl, (c7_missing_target_escapes cfgMulti [("password", "x")] rfl (by decide)).2⟩

/-- C8: in single-server mode, supplying a target or a password query
parameter makes target resolution fail with TargetSpecificationError, and
supplying neither returns exactly the statically configured address, port
and password. -/
theorem c8_single_server_mode (cfg : ExporterCfg) (q : Query) (h1 : cfg.single = true) :
    (((q.lookup "target").isSome = true ∨ (q.lookup "password").isSome = true) →
      get_target cfg q = .error (.targetSpec
        "\x27target\x27 and \x27password\x27 not allowed in single server mode.")) ∧
    ((q.lookup "target").isSome = false → (q.lookup "password").isSome = false →
      get_target cfg q = .ok (cfg.ip, cfg.port, cfg.password)) := by
  constructor
  · intro hs
    rcases hs with hs | hs <;> simp [get_target, h1, hs]
  · intro ht hp
    simp [get_target, h1, ht, hp]

/-- C8 witness. -/
theorem c8_witness :
    cfgExample.single = true ∧
    get_target cfgExample [("password", "x")] = .error (.targetSpec
      "\x27target\x27 and \x27password\x27 not allowed in single server mode.") ∧
    get_target cfgExample [] = .ok (cfgExample.ip, cfgExample.port, cfgExample.password) :=
  ⟨rfl, (c8_single_server_mode cfgExample [("password", "x")] rfl).1 (Or.inr (by decide)),
    (c8_single_server_mode cfgExample [] rfl).2 (by decide) (by decide)⟩

/-- C9: on a stats input whose first line has a different number of tokens
than its second line, with every value token parsing as a float, _parse_stats
succeeds and inserts exactly the first min(n, m) positional pairs (zip
truncates to the shorter list), silently dropping the excess names or
values. -/
theorem c9_length_mismatch (stats : String) (d : SDict) (l1 l2 : List String)
    (fs : List PyFloat)
    (h0 : ((pySplitlines stats).map pySplit).get? 0 = some l1)
    (h1 : ((pySplitlines stats).map pySplit).get? 1 = some l2)
    (hne : l1.length ≠ l2.length)
    (hf : floatList l2 = .ok fs) :
    parse_stats stats d = .ok (dictSets d ((l1.map statsRename).zip (fs.map Value.num))) ∧
    ((l1.map statsRename).zip (fs.map Value.num)).length = min l1.length l2.length := by
  refine ⟨parse_stats_ok stats d l1 l2 fs h0 h1 hf, ?_⟩
  rw [List.length_zip, List.length_map, List.length_map, floatList_length l2 fs hf]

/-- C9 witness. -/
theorem c9_witness :
    ¬ (["A", "B"].length = ["1.0"].length) ∧
    parse_stats "A B\n1.0" [] =
      .ok (dictSets []
        ((["A", "B"].map statsRename).zip (([⟨10, 10⟩] : List PyFloat).map Value.num))) :=
  ⟨by decide, (c9_length_mismatch "A B\n1.0" [] ["A", "B"] ["1.0"] [⟨10, 10⟩]
    (by decide) (by decide) (by decide) (by decide)).1⟩

/-- C10: a players line whose value matches the layout without a bots
segment still inserts a bots key, bound to the None placeholder, and the
players and max_players captures are stored as the matched substrings
(strings), not converted to numbers; the second conjunct shows the
bots-less layout indeed yields an absent bots capture. -/
theorem c10_bots_placeholder (x : String) (ps ms : List Char) (post : List String) (d : SDict)
    (h : matchPlayersL (pyStrip x).data = some (ps, none, ms))
    (psL msL : List Char)
    (hp : psL ≠ []) (hpd : ∀ a ∈ psL, a.isDigit = true)
    (hm : msL ≠ []) (hmd : ∀ a ∈ msL, a.isDigit = true) :
    parse_status_lines
        (String.mk ('p' :: 'l' :: 'a' :: 'y' :: 'e' :: 'r' :: 's' :: ':' :: x.data) :: post) d =
      parse_status_lines post
        (setKey (setKey (setKey d "players" (Value.str (String.mk ps))) "bots" Value.pyNone)
          "max_players" (Value.str (String.mk ms))) ∧
    matchPlayersL (psL ++ ' ' :: '(' :: (msL ++ ' ' :: 'm' :: 'a' :: 'x' :: ')' :: [])) =
      some (psL, none, msL) := by
  refine ⟨?_, matchPlayersL_gmod psL msL hp hpd hm hmd⟩
  rw [parse_status_players_line]
  have hu : statusLineUpdate "players" (pyStrip x) d =
      setKey (setKey (setKey d "players" (Value.str (String.mk ps))) "bots" Value.pyNone)
        "max_players" (Value.str (String.mk ms)) := by
    simp [statusLineUpdate, matchPlayers, h, optValue]
  rw [hu]

/-- C10 witness. -/
theorem c10_witness :
    matchPlayersL (pyStrip "12 (16 max)").data = some (['1', '2'], none, ['1', '6']) ∧
    parse_status_lines
        (String.mk ('p' :: 'l' :: 'a' :: 'y' :: 'e' :: 'r' :: 's' :: ':' :: ("12 (16 max)").data) :: [])
        [] =
      parse_status_lines []
        (setKey (setKey (setKey [] "players" (Value.str (String.mk ['1', '2']))) "bots" Value.pyNone)
          "max_players" (Value.str (String.mk ['1', '6']))) :=
  ⟨by decide, (c10_bots_placeholder "12 (16 max)" ['1', '2'] ['1', '6'] [] [] (by decide)
    ['1'] ['6'] (by decide) (by decide) (by decide) (by decide)).1⟩
